import Mathlib

/-!
Shallow embedding of the `yatube` blogging platform (Django project):
data model (Post, Group, Follow, User), the pagination utility
`posts/utils/paginator.py`, the migration-declared model options
(`ordering = ['-pub_date']`, `on_delete = SET_NULL` for `post.group`),
and the request handlers of the posts and users apps.
-/

namespace Yatube

/-- A blog post. From the data model: `id`, `text`, `pub_date`
(auto-set publication timestamp, modelled as a `Nat`), `author`
(modelled by username), optional `group` (modelled by group id),
optional `image` (the stored file path). -/
structure Post where
  id : Nat
  text : String
  pub_date : Nat
  author : String
  group : Option Nat
  image : Option String
deriving Repr, DecidableEq

/-- A group (category) of posts: `id`, `title`, unique `slug`, `description`. -/
structure Group where
  id : Nat
  title : String
  slug : String
  description : String
deriving Repr, DecidableEq

/-- A follow relationship: `user` follows `author` (both by username). -/
structure Follow where
  user : String
  author : String
deriving Repr, DecidableEq

/-- The persisted relational state backing the posts app. -/
structure DB where
  posts : List Post
  groups : List Group
  follows : List Follow
deriving Repr, DecidableEq

/-! ### Pagination — `posts/utils/paginator.py`

`POSTS_PER_PAGE = 10`; `get_page_obj(request, queryset)` builds
`Paginator(queryset, POSTS_PER_PAGE)` and returns
`paginator.get_page(request.GET.get('page'))`.

The Django `Paginator` (orphans = 0, allow_empty_first_page = True) is
embedded below: `num_pages = ceil(max(1, count) / per_page)`;
`get_page` coerces the raw query value with `int(...)`, mapping a
missing value or a non-numeric string to page 1 (`PageNotAnInteger`)
and any numeric value outside `1..num_pages` to the last page
(`EmptyPage` is caught and replaced by `num_pages`); the page `n`
holds elements `(n-1)*per_page` up to `n*per_page` (capped at `count`).
-/

/-- `POSTS_PER_PAGE` from `posts/utils/paginator.py`. -/
def POSTS_PER_PAGE : Nat := 10

/-- Strip surrounding whitespace (as Python `int(...)` accepts it).
Raw query-string values are modelled as `List Char`. -/
def pyStrip (s : List Char) : List Char :=
  ((s.dropWhile Char.isWhitespace).reverse.dropWhile Char.isWhitespace).reverse

/-- The numeric value of a run of decimal digits. -/
def digitsVal (ds : List Char) : Nat :=
  ds.foldl (fun n c => n * 10 + (c.toNat - 48)) 0

/-- Python `int(s)` on the raw query-string value: optional surrounding
whitespace, optional sign, then decimal digits; anything else raises
`ValueError` (modelled as `none`). -/
def pyInt? (s : List Char) : Option Int :=
  let t := pyStrip s
  let (sign, digits) :=
    match t with
    | '-' :: rest => ((-1 : Int), rest)
    | '+' :: rest => ((1 : Int), rest)
    | _ => ((1 : Int), t)
  if digits ≠ [] ∧ digits.all Char.isDigit then
    some (sign * (digitsVal digits : Nat))
  else
    none

/-- `Paginator.num_pages` for a queryset of `count` items with
`per_page = POSTS_PER_PAGE`: `ceil(max(1, count) / per_page)`. -/
def num_pages (count : Nat) : Nat :=
  (max 1 count + POSTS_PER_PAGE - 1) / POSTS_PER_PAGE

/-- `Paginator.get_page`'s page-number resolution: the raw value of the
`page` query parameter (`none` when absent) is coerced with `int(...)`;
`PageNotAnInteger` falls back to page 1, `EmptyPage` (numeric value
below 1 or above `num_pages`) falls back to the last page. -/
def resolve_page (pageParam : Option (List Char)) (np : Nat) : Nat :=
  match pageParam with
  | none => 1
  | some s =>
    match pyInt? s with
    | none => 1
    | some n => if n < 1 then np else if n > (np : Int) then np else n.toNat

/-- `get_page_obj(request, queryset)` from `posts/utils/paginator.py`:
returns the page of the queryset selected by the request's `page`
query parameter (the object list of the returned `Page`). -/
def get_page_obj (pageParam : Option (List Char)) (queryset : List α) : List α :=
  let n := resolve_page pageParam (num_pages queryset.length)
  (queryset.drop ((n - 1) * POSTS_PER_PAGE)).take POSTS_PER_PAGE

/-! ### Default ordering — migration `0003_auto_20220913_1814.py`

`AlterModelOptions(name='post', options={'ordering': ['-pub_date']})`:
every queryset of posts without an explicit ordering is returned in
publication-date descending order. -/

/-- The default ordering relation on posts: `-pub_date`
(newest first). -/
def byPubDateDesc (a b : Post) : Prop := b.pub_date ≤ a.pub_date

instance : DecidableRel byPubDateDesc :=
  fun a b => Nat.decLe b.pub_date a.pub_date

instance : IsTotal Post byPubDateDesc :=
  ⟨fun a b => Nat.le_total b.pub_date a.pub_date⟩

instance : IsTrans Post byPubDateDesc :=
  ⟨fun _ _ _ h1 h2 => Nat.le_trans h2 h1⟩

/-- Apply the model's default ordering `['-pub_date']` to a queryset. -/
def defaultOrder (l : List Post) : List Post :=
  l.insertionSort byPubDateDesc

/-! ### View querysets

`posts/views.py` is not under `src/`; the queryset of each listing
view is modelled from the spec. -/

/-- Modelled from the spec: the home feed (`posts:index`, `GET /`)
— `posts/views.py` `index` is missing from `src/` — shows the
paginated post feed: all posts, default ordering. -/
def index_queryset (db : DB) : List Post :=
  defaultOrder db.posts

/-- Modelled from the spec: the group page (`posts:group_list`,
`GET /group/<slug>/`) — `posts/views.py` `group_posts` is missing from
`src/` — shows the paginated posts filtered by group, default
ordering. -/
def group_queryset (db : DB) (g : Group) : List Post :=
  defaultOrder (db.posts.filter (fun p => p.group == some g.id))

/-- Modelled from the spec: the profile page (`posts:profile`,
`GET /profile/<username>/`) — `posts/views.py` `profile` is missing
from `src/` — shows the paginated posts filtered by author, default
ordering. -/
def profile_queryset (db : DB) (username : String) : List Post :=
  defaultOrder (db.posts.filter (fun p => p.author == username))

/-- Modelled from the spec: the follow feed (`posts:follow_index`,
`GET /follow/`) — `posts/views.py` `follow_index` is missing from
`src/` — shows posts only from authors the requesting user follows,
default ordering. -/
def follow_queryset (db : DB) (user : String) : List Post :=
  defaultOrder (db.posts.filter
    (fun p => db.follows.any (fun f => f.user == user && f.author == p.author)))

/-! ### Routes and responses -/

/-- URL paths, per the route table (`GET /`, `/profile/<username>/`,
`/posts/<id>/`, `/posts/<id>/edit/`, `/create/`, `/auth/login/`). -/
def login_url : String := "/auth/login/"

/-- The login redirect issued by `login_required`: the login page with
the originally requested path as the `next` query parameter. -/
def login_redirect_url (nextPath : String) : String :=
  login_url ++ "?next=" ++ nextPath

/-- Path of the post-creation route `posts:post_create`. -/
def create_path : String := "/create/"

/-- Path of the post-edit route `posts:post_edit`. -/
def post_edit_path (post_id : Nat) : String :=
  "/posts/" ++ toString post_id ++ "/edit/"

/-- Path of the post-detail route `posts:post_detail`. -/
def post_detail_path (post_id : Nat) : String :=
  "/posts/" ++ toString post_id ++ "/"

/-- Path of the profile route `posts:profile`. -/
def profile_path (username : String) : String :=
  "/profile/" ++ username ++ "/"

/-- An HTTP response at the granularity the claims need: a redirect to
a location, a rendered template, or a re-rendered invalid form. -/
inductive Response where
  | redirect (location : String) : Response
  | template (name : String) : Response
  | form_invalid : Response
deriving Repr, DecidableEq

/-! ### Post creation and editing

`posts/views.py` is not under `src/`; the handlers are modelled from
the spec (§4.1 post authoring and editing, §4.6 authorization model,
§7 error handling). -/

/-- The bound data of `PostForm`: required `text`, optional `group`,
optional `image` (the uploaded file's name). -/
structure PostFormInput where
  text : String
  group : Option Nat
  image : Option String
deriving Repr, DecidableEq

/-- Fresh primary key for a new post. -/
def next_post_id (db : DB) : Nat :=
  (db.posts.map Post.id).foldr max 0 + 1

/-- The stored path of an uploaded image: the posts app stores uploads
under the `posts/` media directory (the test expects
`image='posts/small.gif'` for an upload named `small.gif`). -/
def stored_image_path (filename : String) : String :=
  "posts/" ++ filename

/-- Modelled from the spec: `posts/views.py` `post_create` is missing
from `src/`. Only an authenticated user may create a post
(unauthenticated attempts redirect to login, preserving the requested
path); creation requires non-empty text, group and image are optional;
on success the new post is persisted for the requesting author and the
response redirects to the author's profile page. -/
def post_create (db : DB) (requester : Option String) (now : Nat)
    (form : PostFormInput) : Response × DB :=
  match requester with
  | none => (Response.redirect (login_redirect_url create_path), db)
  | some u =>
    if form.text = "" then (Response.form_invalid, db)
    else
      let newPost : Post :=
        { id := next_post_id db, text := form.text, pub_date := now,
          author := u, group := form.group,
          image := form.image.map stored_image_path }
      (Response.redirect (profile_path u),
       { db with posts := db.posts ++ [newPost] })

/-- Modelled from the spec: `posts/views.py` `post_edit` is missing
from `src/`. A GET of `/posts/<id>/edit/`: unauthenticated requesters
are redirected to login preserving the requested path; a requester who
is not the post's author is silently redirected to the read-only post
detail page; the author receives the edit form
(`posts/create_post.html`). -/
def post_edit_get (db : DB) (requester : Option String)
    (post_id : Nat) : Response :=
  match requester with
  | none => Response.redirect (login_redirect_url (post_edit_path post_id))
  | some u =>
    match db.posts.find? (fun p => p.id == post_id) with
    | none => Response.template "core/404.html"
    | some p =>
      if p.author == u then Response.template "posts/create_post.html"
      else Response.redirect (post_detail_path post_id)

/-! ### Group deletion — migration `0003_auto_20220913_1814.py`

`AlterField(model_name='post', name='group', field=ForeignKey(blank=True,
null=True, on_delete=SET_NULL, to='posts.Group'))`: deleting a group
nulls the `group` field of its posts instead of cascade-deleting
them. -/

/-- Delete the group with id `gid`: the group row is removed and, per
`on_delete=SET_NULL`, every post pointing at it has its `group` field
set to null; no other field of any post is touched and no post is
deleted. -/
def delete_group (db : DB) (gid : Nat) : DB :=
  { db with
    groups := db.groups.filter (fun g => g.id != gid),
    posts := db.posts.map (fun p =>
      if p.group == some gid then { p with group := none } else p) }

/-- Delete a post by id (used by the cache scenario). -/
def delete_post (db : DB) (post_id : Nat) : DB :=
  { db with posts := db.posts.filter (fun p => p.id != post_id) }

/-! ### Home-feed caching

Modelled from the spec (§4.5): the home page response is cached as a
whole for a fixed window of 20 seconds by a template-level cache
directive (the template is not under `src/`); the cache is keyed by
time-based expiry only, never invalidated by writes, and
`cache.clear()` empties it. Time is logical (`Nat` seconds). -/

/-- The cache window of the home page, in seconds. -/
def CACHE_TIMEOUT : Nat := 20

/-- The full-page cache for the home feed: at most one stored entry,
the rendered content together with the time it was stored. -/
structure Cache where
  entry : Option (String × Nat)
deriving Repr, DecidableEq

/-- `cache.clear()`: the emptied cache. -/
def cache_clear : Cache := ⟨none⟩

/-- Render the home page body from the current data: the first page of
the default-ordered feed. -/
def render_index (db : DB) : String :=
  String.intercalate "\n" ((get_page_obj none (index_queryset db)).map Post.text)

/-- Modelled from the spec: serving `GET /` through the full-page
cache. A stored entry younger than `CACHE_TIMEOUT` is returned as-is
regardless of intervening writes; otherwise the page is rendered fresh
and stored with the current time. Returns the response body and the
updated cache. -/
def index_page (db : DB) (c : Cache) (now : Nat) : String × Cache :=
  match c.entry with
  | some (content, storedAt) =>
    if now < storedAt + CACHE_TIMEOUT then (content, c)
    else (render_index db, ⟨some (render_index db, now)⟩)
  | none => (render_index db, ⟨some (render_index db, now)⟩)

/-! ### Users app — `users/views.py` and `users/forms.py` (in `src/`)

`class SignUp(CreateView)` with `form_class = CreationForm`,
`success_url = reverse_lazy('posts:index')`,
`template_name = 'users/signup.html'`. `CreationForm` is a
`UserCreationForm` over fields
`('first_name', 'last_name', 'username', 'email')`. -/

/-- A user account record, with the `CreationForm` fields. -/
structure User where
  username : String
  email : String
  first_name : String
  last_name : String
deriving Repr, DecidableEq

/-- The bound data of `CreationForm`: its four declared fields plus
the two password fields inherited from `UserCreationForm`. -/
structure CreationFormInput where
  first_name : String
  last_name : String
  username : String
  email : String
  password1 : String
  password2 : String
deriving Repr, DecidableEq

/-- `CreationForm.is_valid()`, per `UserCreationForm` semantics: the
username is required and must be unique, the passwords are required
and must match. -/
def creation_form_valid (users : List User) (f : CreationFormInput) : Bool :=
  f.username != "" && f.password1 != "" && f.password1 == f.password2 &&
    users.all (fun u => u.username != f.username)

/-- Route names used by `reverse`/`reverse_lazy`. -/
inductive RouteName where
  | posts_index : RouteName
  | users_login : RouteName
  | posts_profile (username : String) : RouteName
deriving Repr, DecidableEq

/-- `reverse`: route name to URL path, per the route table
(`GET /` is the home feed). -/
def reverse : RouteName → String
  | RouteName.posts_index => "/"
  | RouteName.users_login => login_url
  | RouteName.posts_profile u => profile_path u

/-- `SignUp.success_url = reverse_lazy('posts:index')` from
`users/views.py`. -/
def SignUp_success_url : RouteName := RouteName.posts_index

/-- The `SignUp` view handling a POST, per Django `CreateView`
semantics: a valid form is saved and the response redirects to
`success_url`; an invalid form is re-rendered. -/
def signup (users : List User) (f : CreationFormInput) :
    Response × List User :=
  if creation_form_valid users f then
    (Response.redirect (reverse SignUp_success_url),
     users ++ [⟨f.username, f.email, f.first_name, f.last_name⟩])
  else
    (Response.form_invalid, users)

/-! ### Concrete fixtures (mirroring the test setups) -/

/-- A concrete post by `Author` in group 1, as in the paginator test
fixture. -/
def mkPost (i : Nat) : Post :=
  ⟨i, "test post", i, "Author", some 1, none⟩

/-- Thirteen posts by one author, all in one group, as created by
`PaginatorViewsTest.setUpClass`. -/
def posts13 : List Post :=
  (List.range 13).map mkPost

/-- A concrete group, as in the test fixtures. -/
def group1 : Group :=
  ⟨1, "Test group", "test-slug", "test description"⟩

/-- The paginator test database: 13 posts, one group, no follows. -/
def db13 : DB :=
  ⟨posts13, [group1], []⟩

/-- A two-user database with one post and one follow pair, as in
`FollowViewsTest.setUpClass`. -/
def dbFollow : DB :=
  ⟨[⟨1, "test post", 1, "author", none, none⟩], [],
   [⟨"follower", "author"⟩]⟩

/-- A concrete post authored by `Author`, as in
`PostURLTests.setUpClass`. -/
def postE : Post :=
  ⟨1, "test post", 1, "Author", none, none⟩

/-- The URL-test database: one post, its author, and another user. -/
def dbEdit : DB :=
  ⟨[postE], [], []⟩

/-- A database with one group and one post in it, for the group
deletion scenario. -/
def dbGroupDel : DB :=
  ⟨[⟨1, "test post", 1, "Author", some 7, some "posts/small.gif"⟩],
   [⟨7, "Test group", "test-slug", "test description"⟩], []⟩

/-- A concrete valid signup form submission. -/
def fSignup : CreationFormInput :=
  ⟨"First", "Last", "newuser", "new@example.com", "pass-123", "pass-123"⟩

/-! ### Helper lemmas -/

/-- A paginator always has at least one page
(`allow_empty_first_page = True`). -/
theorem num_pages_pos (count : Nat) : 1 ≤ num_pages count := by
  unfold num_pages POSTS_PER_PAGE
  rw [Nat.one_le_div_iff (by norm_num)]
  omega

/-- The resolved page number is always a valid page: between 1 and
`num_pages`. -/
theorem resolve_page_bounds (pageParam : Option (List Char)) (np : Nat)
    (h : 1 ≤ np) :
    1 ≤ resolve_page pageParam np ∧ resolve_page pageParam np ≤ np := by
  unfold resolve_page
  split
  · omega
  · split
    · omega
    · split
      · omega
      · split
        · omega
        · rename_i n h1 h2
          omega

/-- Sorting by the default ordering preserves the queryset's length. -/
theorem defaultOrder_length (l : List Post) :
    (defaultOrder l).length = l.length :=
  (List.perm_insertionSort byPubDateDesc l).length_eq

/-- Sorting by the default ordering preserves the queryset's
elements. -/
theorem defaultOrder_mem (l : List Post) (p : Post) :
    p ∈ defaultOrder l ↔ p ∈ l :=
  (List.perm_insertionSort byPubDateDesc l).mem_iff

/-- The length of a returned page: the page size, capped by what
remains of the queryset past the page's offset. -/
theorem get_page_obj_length (pageParam : Option (List Char))
    (l : List α) :
    (get_page_obj pageParam l).length =
      min POSTS_PER_PAGE
        (l.length -
          (resolve_page pageParam (num_pages l.length) - 1) *
            POSTS_PER_PAGE) := by
  simp [get_page_obj]

/-- Page lengths of a 13-element queryset: 10 on page 1, 3 on
page 2. -/
theorem get_page_obj_len13 (l : List Post) (h : l.length = 13) :
    (get_page_obj none l).length = 10 ∧
    (get_page_obj (some "2".data) l).length = 3 := by
  rw [get_page_obj_length, get_page_obj_length, h]
  constructor <;> decide

/-! ### Claim theorems -/

/-- C3: for every paginated request, page selection is total over
arbitrary `page` query-parameter values: the resolved page is always a
valid page (no input raises an error), a missing or non-numeric value
yields page 1, and a numeric value beyond the last page yields the
last page; the returned window is the resolved page's slice. -/
theorem page_selection_total (queryset : List Post)
    (pageParam : Option (List Char)) :
    (1 ≤ resolve_page pageParam (num_pages queryset.length) ∧
      resolve_page pageParam (num_pages queryset.length) ≤
        num_pages queryset.length ∧
      get_page_obj pageParam queryset =
        (queryset.drop
          ((resolve_page pageParam (num_pages queryset.length) - 1) *
            POSTS_PER_PAGE)).take POSTS_PER_PAGE) ∧
    (pageParam = none →
      resolve_page pageParam (num_pages queryset.length) = 1) ∧
    (∀ s, pageParam = some s → pyInt? s = none →
      resolve_page pageParam (num_pages queryset.length) = 1) ∧
    (∀ s n, pageParam = some s → pyInt? s = some n →
      (num_pages queryset.length : Int) < n →
      resolve_page pageParam (num_pages queryset.length) =
        num_pages queryset.length) := by
  refine ⟨⟨(resolve_page_bounds _ _ (num_pages_pos _)).1,
    (resolve_page_bounds _ _ (num_pages_pos _)).2, rfl⟩, ?_, ?_, ?_⟩
  · rintro rfl
    rfl
  · rintro s rfl hs
    simp [resolve_page, hs]
  · rintro s n rfl hs hn
    have h1 : ¬ n < 1 := by
      have := num_pages_pos queryset.length
      omega
    simp only [resolve_page, hs]
    rw [if_neg h1, if_pos hn]

/-- Witness for C3: concrete out-of-range and non-numeric page
values on the 13-post fixture. -/
theorem page_selection_total_witness :
    resolve_page (some "99".data) (num_pages posts13.length) =
      num_pages posts13.length ∧
    resolve_page (some "abc".data) (num_pages posts13.length) = 1 :=
  ⟨(page_selection_total posts13 (some "99".data)).2.2.2 "99".data 99
      rfl (by decide) (by decide),
   (page_selection_total posts13 (some "abc".data)).2.2.1 "abc".data
      rfl (by decide)⟩

/-- C2: for every collection of exactly 13 posts (all by one author,
all in one group), the home feed, the group's page and the author's
profile page each show exactly 10 posts on page 1 and exactly 3 on
page 2, with the page size fixed at 10. -/
theorem thirteen_posts_pagination (db : DB) (u : String) (g : Group)
    (hlen : db.posts.length = 13)
    (hauthor : ∀ p ∈ db.posts, p.author = u)
    (hgroup : ∀ p ∈ db.posts, p.group = some g.id) :
    POSTS_PER_PAGE = 10 ∧
    ((get_page_obj none (index_queryset db)).length = 10 ∧
      (get_page_obj (some "2".data) (index_queryset db)).length = 3) ∧
    ((get_page_obj none (group_queryset db g)).length = 10 ∧
      (get_page_obj (some "2".data) (group_queryset db g)).length = 3) ∧
    ((get_page_obj none (profile_queryset db u)).length = 10 ∧
      (get_page_obj (some "2".data) (profile_queryset db u)).length = 3) := by
  have hfg : db.posts.filter (fun p => p.group == some g.id) = db.posts :=
    List.filter_eq_self.mpr (fun a ha => by simp [hgroup a ha])
  have hfa : db.posts.filter (fun p => p.author == u) = db.posts :=
    List.filter_eq_self.mpr (fun a ha => by simp [hauthor a ha])
  have hidx : (index_queryset db).length = 13 := by
    rw [index_queryset, defaultOrder_length, hlen]
  have hgrp : (group_queryset db g).length = 13 := by
    rw [group_queryset, defaultOrder_length, hfg, hlen]
  have hprof : (profile_queryset db u).length = 13 := by
    rw [profile_queryset, defaultOrder_length, hfa, hlen]
  exact ⟨rfl, get_page_obj_len13 _ hidx, get_page_obj_len13 _ hgrp,
    get_page_obj_len13 _ hprof⟩

/-- Witness for C2: the 13-post fixture database. -/
theorem thirteen_posts_pagination_witness :
    (get_page_obj none (index_queryset db13)).length = 10 ∧
    (get_page_obj (some "2".data) (group_queryset db13 group1)).length = 3 ∧
    (get_page_obj none (profile_queryset db13 "Author")).length = 10 :=
  ⟨((thirteen_posts_pagination db13 "Author" group1 (by decide)
      (by decide) (by decide)).2.1).1,
   ((thirteen_posts_pagination db13 "Author" group1 (by decide)
      (by decide) (by decide)).2.2.1).2,
   ((thirteen_posts_pagination db13 "Author" group1 (by decide)
      (by decide) (by decide)).2.2.2).1⟩

/-- C7: every listing queryset without an explicit ordering — home
feed, group page, profile page, follow feed — is returned in
publication-date descending order (newest first, the model's default
ordering) and holds exactly the posts of the corresponding filter. -/
theorem querysets_default_ordering (db : DB) (g : Group) (u : String)
    (viewer : String) :
    (List.Sorted byPubDateDesc (index_queryset db) ∧
      (index_queryset db).Perm db.posts) ∧
    (List.Sorted byPubDateDesc (group_queryset db g) ∧
      (group_queryset db g).Perm
        (db.posts.filter (fun p => p.group == some g.id))) ∧
    (List.Sorted byPubDateDesc (profile_queryset db u) ∧
      (profile_queryset db u).Perm
        (db.posts.filter (fun p => p.author == u))) ∧
    (List.Sorted byPubDateDesc (follow_queryset db viewer) ∧
      (follow_queryset db viewer).Perm
        (db.posts.filter (fun p =>
          db.follows.any (fun f =>
            f.user == viewer && f.author == p.author)))) :=
  ⟨⟨List.sorted_insertionSort byPubDateDesc _,
      List.perm_insertionSort byPubDateDesc _⟩,
   ⟨List.sorted_insertionSort byPubDateDesc _,
      List.perm_insertionSort byPubDateDesc _⟩,
   ⟨List.sorted_insertionSort byPubDateDesc _,
      List.perm_insertionSort byPubDateDesc _⟩,
   ⟨List.sorted_insertionSort byPubDateDesc _,
      List.perm_insertionSort byPubDateDesc _⟩⟩

/-- C6: deleting a group keeps every post (same count), sets the
`group` field of the group's posts to null, and leaves every other
field of every post unchanged. -/
theorem delete_group_sets_null (db : DB) (gid : Nat) (p : Post)
    (hp : p ∈ db.posts) (hpg : p.group = some gid) :
    (delete_group db gid).posts.length = db.posts.length ∧
    (∀ q ∈ db.posts, ∃ q' ∈ (delete_group db gid).posts,
      q'.id = q.id ∧ q'.text = q.text ∧ q'.pub_date = q.pub_date ∧
      q'.author = q.author ∧ q'.image = q.image ∧
      q'.group = (if q.group = some gid then none else q.group)) ∧
    (∃ p' ∈ (delete_group db gid).posts,
      p'.id = p.id ∧ p'.text = p.text ∧ p'.pub_date = p.pub_date ∧
      p'.author = p.author ∧ p'.image = p.image ∧ p'.group = none) := by
  have hmain : ∀ q ∈ db.posts, ∃ q' ∈ (delete_group db gid).posts,
      q'.id = q.id ∧ q'.text = q.text ∧ q'.pub_date = q.pub_date ∧
      q'.author = q.author ∧ q'.image = q.image ∧
      q'.group = (if q.group = some gid then none else q.group) := by
    intro q hq
    refine ⟨_, List.mem_map_of_mem
      (fun r => if r.group == some gid then { r with group := none }
        else r) hq, ?_⟩
    by_cases h : q.group = some gid <;> simp [h]
  refine ⟨List.length_map _ _, hmain, ?_⟩
  obtain ⟨p', hp', hid, htext, hdate, hauth, him, hgr⟩ := hmain p hp
  exact ⟨p', hp', hid, htext, hdate, hauth, him, by rw [hgr, if_pos hpg]⟩

/-- Witness for C6: deleting group 7 from a concrete one-post
database keeps the post. -/
theorem delete_group_sets_null_witness :
    (delete_group dbGroupDel 7).posts.length =
      dbGroupDel.posts.length :=
  (delete_group_sets_null dbGroupDel 7
    ⟨1, "test post", 1, "Author", some 7, some "posts/small.gif"⟩
    (by decide) (by decide)).1

/-- C4: for an authenticated requester, a GET of the edit route of an
existing post redirects non-authors to the post's read-only detail
page (no error response), while the author receives the edit form. -/
theorem post_edit_author_only (db : DB) (u : String) (post_id : Nat)
    (p : Post)
    (hfind : db.posts.find? (fun q => q.id == post_id) = some p) :
    (p.author ≠ u →
      post_edit_get db (some u) post_id =
        Response.redirect (post_detail_path post_id)) ∧
    (p.author = u →
      post_edit_get db (some u) post_id =
        Response.template "posts/create_post.html") := by
  constructor
  · intro hne
    simp [post_edit_get, hfind, hne]
  · intro heq
    simp [post_edit_get, hfind, heq]

/-- Witness for C4: a non-author (`Somebody`) is redirected to the
detail page; the author gets the form. -/
theorem post_edit_author_only_witness :
    post_edit_get dbEdit (some "Somebody") 1 =
      Response.redirect (post_detail_path 1) ∧
    post_edit_get dbEdit (some "Author") 1 =
      Response.template "posts/create_post.html" :=
  ⟨(post_edit_author_only dbEdit "Somebody" 1 postE (by decide)).1
      (by decide),
   (post_edit_author_only dbEdit "Author" 1 postE (by decide)).2 rfl⟩

/-- C5: every unauthenticated request to the post-creation or
post-edit route redirects to the login page whose `next` query
parameter is exactly the originally requested path; nothing is
persisted. -/
theorem unauthenticated_login_redirect (db : DB) (now : Nat)
    (form : PostFormInput) (post_id : Nat) :
    (post_create db none now form).1 =
      Response.redirect (login_url ++ "?next=" ++ create_path) ∧
    (post_create db none now form).2 = db ∧
    post_edit_get db none post_id =
      Response.redirect (login_url ++ "?next=" ++ post_edit_path post_id) :=
  ⟨rfl, rfl, rfl⟩

/-- C1: an authenticated user submitting the creation form with valid
text, a group and an image gets exactly one new post, a redirect to
their profile page, and the new post is retrievable with the exact
stored image path. -/
theorem post_create_success (db : DB) (u : String) (now : Nat)
    (text : String) (gid : Nat) (filename : String)
    (htext : text ≠ "") :
    ((post_create db (some u) now ⟨text, some gid, some filename⟩).2).posts.length
        = db.posts.length + 1 ∧
    (post_create db (some u) now ⟨text, some gid, some filename⟩).1 =
      Response.redirect (profile_path u) ∧
    ((post_create db (some u) now ⟨text, some gid, some filename⟩).2).posts.any
      (fun p => p.text == text && p.group == some gid &&
        p.image == some (stored_image_path filename)) = true := by
  refine ⟨?_, ?_, ?_⟩ <;> simp [post_create, htext]

/-- Witness for C1: a concrete valid submission against the 13-post
database. -/
theorem post_create_success_witness :
    ((post_create db13 (some "Author") 99
        ⟨"new post", some 1, some "small.gif"⟩).2).posts.length =
      db13.posts.length + 1 ∧
    ((post_create db13 (some "Author") 99
        ⟨"new post", some 1, some "small.gif"⟩).2).posts.any
      (fun p => p.text == "new post" && p.group == some 1 &&
        p.image == some (stored_image_path "small.gif")) = true :=
  ⟨(post_create_success db13 "Author" 99 "new post" 1 "small.gif"
      (by decide)).1,
   (post_create_success db13 "Author" 99 "new post" 1 "small.gif"
      (by decide)).2.2⟩

/-- C9: a post appears in a user's follow feed exactly when the post
exists and a Follow pair (user, post's author) exists — followers see
the author's posts, non-followers do not. -/
theorem follow_feed_iff (db : DB) (u : String) (p : Post) :
    p ∈ follow_queryset db u ↔
      (p ∈ db.posts ∧ (⟨u, p.author⟩ : Follow) ∈ db.follows) := by
  rw [follow_queryset, defaultOrder_mem, List.mem_filter]
  constructor
  · rintro ⟨hp, hany⟩
    rw [List.any_eq_true] at hany
    obtain ⟨f, hf, hcond⟩ := hany
    rw [Bool.and_eq_true, beq_iff_eq, beq_iff_eq] at hcond
    obtain ⟨h1, h2⟩ := hcond
    refine ⟨hp, ?_⟩
    have hfe : f = ⟨u, p.author⟩ := by
      cases f
      simp_all
    rwa [hfe] at hf
  · rintro ⟨hp, hf⟩
    refine ⟨hp, List.any_eq_true.mpr ⟨⟨u, p.author⟩, hf, ?_⟩⟩
    simp

/-- C8: a request within the 20-second cache window after the home
page was rendered returns the pre-deletion content even if a post was
deleted meanwhile; once the window has expired, or after an explicit
cache clear, the home page reflects the deletion. -/
theorem cache_window_staleness (db : DB) (post_id : Nat)
    (t0 t1 t2 t3 : Nat) (hwin : t1 < t0 + CACHE_TIMEOUT)
    (hexp : t0 + CACHE_TIMEOUT ≤ t3) :
    (index_page (delete_post db post_id)
        (index_page db cache_clear t0).2 t1).1 =
      (index_page db cache_clear t0).1 ∧
    (index_page (delete_post db post_id)
        (index_page db cache_clear t0).2 t3).1 =
      render_index (delete_post db post_id) ∧
    (index_page (delete_post db post_id) cache_clear t2).1 =
      render_index (delete_post db post_id) := by
  refine ⟨?_, ?_, rfl⟩
  · simp [index_page, cache_clear, hwin]
  · have hne : ¬ t3 < t0 + CACHE_TIMEOUT := by omega
    simp [index_page, cache_clear, hne]

/-- Witness for C8: a deletion 5 seconds into the window is invisible;
at 20 seconds, and after a clear, it is visible. -/
theorem cache_window_staleness_witness :
    (index_page (delete_post db13 1)
        (index_page db13 cache_clear 0).2 5).1 =
      (index_page db13 cache_clear 0).1 ∧
    (index_page (delete_post db13 1) cache_clear 7).1 =
      render_index (delete_post db13 1) :=
  ⟨(cache_window_staleness db13 1 0 5 7 20 (by decide) (by decide)).1,
   (cache_window_staleness db13 1 0 5 7 20 (by decide) (by decide)).2.2⟩

/-- The profile page of any user is a different location from the
home feed. -/
theorem profile_path_ne_root (uname : String) :
    profile_path uname ≠ reverse RouteName.posts_index := by
  intro h
  have hd := congrArg String.data h
  rw [profile_path, String.data_append, String.data_append] at hd
  have hl := congrArg List.length hd
  rw [List.length_append, List.length_append] at hl
  have h9 : "/profile/".data.length = 9 := by decide
  have h1 : "/".data.length = 1 := by decide
  have hrev : (reverse RouteName.posts_index).data.length = 1 := by decide
  omega

/-- C10: every successful signup submission redirects to the home
feed (`posts:index`) — not to the login page and not to the new
user's profile — and persists the new account. -/
theorem signup_success_redirect (users : List User)
    (f : CreationFormInput)
    (hvalid : creation_form_valid users f = true) :
    (signup users f).1 = Response.redirect (reverse SignUp_success_url) ∧
    SignUp_success_url = RouteName.posts_index ∧
    reverse RouteName.posts_index = "/" ∧
    (signup users f).1 ≠
      Response.redirect (reverse RouteName.users_login) ∧
    (∀ uname, (signup users f).1 ≠
      Response.redirect (reverse (RouteName.posts_profile uname))) ∧
    (signup users f).2 =
      users ++ [⟨f.username, f.email, f.first_name, f.last_name⟩] := by
  have h1 : (signup users f).1 =
      Response.redirect (reverse SignUp_success_url) := by
    simp [signup, hvalid]
  refine ⟨h1, rfl, rfl, ?_, ?_, ?_⟩
  · rw [h1]
    decide
  · intro uname
    rw [h1]
    intro h
    injection h with h2
    exact profile_path_ne_root uname h2.symm
  · simp [signup, hvalid]

/-- Witness for C10: a concrete valid signup against an empty user
table. -/
theorem signup_success_redirect_witness :
    (signup [] fSignup).1 =
      Response.redirect (reverse SignUp_success_url) ∧
    (signup [] fSignup).1 ≠
      Response.redirect (reverse (RouteName.posts_profile "newuser")) :=
  ⟨(signup_success_redirect [] fSignup (by decide)).1,
   (signup_success_redirect [] fSignup (by decide)).2.2.2.2.1 "newuser"⟩

end Yatube
